import Mathlib

/-!
Shallow embedding of the MetaStruct implicit-geometry pipeline
(src/Objects/Geometry.py and src/Objects/Lattices/DoubleGyroidNetwork.py).

Scalars are modelled as exact rationals; the sampled coordinate grids and
scalar fields are flattened lists of rationals operated on pointwise, matching
the elementwise numpy semantics of the source.  External collaborators
(the marching-cubes extractor, the qslim simplifier, the patch orienter, the
renderer, the writers) are opaque oracle parameters, per the spec's interface
boundary.  Methods mutate `self`; here each method is a function from a
`Geometry` state to a new state, paired with an `Option PipelineError` when
the method can raise.
-/

set_option autoImplicit false

namespace MetaStruct

/-- Errors the pipeline can raise, named after the spec's error taxonomy
(the Python source raises ValueError / AssertionError at these points). -/
inductive PipelineError where
  | ValueError
  | TypeError
  | InvalidArgumentError
  | NoIsosurfaceError
  | NoMeshError
  | QSlimAssertionError
  deriving DecidableEq

/-- Pointwise ternary zip over three equally shaped flattened grids, the model
of an elementwise numpy operation over the three coordinate arrays. -/
def zipWith3 (f : ℚ → ℚ → ℚ → ℚ) : List ℚ → List ℚ → List ℚ → List ℚ
  | a :: as, b :: bs, c :: cs => f a b c :: zipWith3 f as bs cs
  | _, _, _ => []

/-- State of a `Geometry` instance: the attributes set in `Geometry.__init__`
(position offset, nullable mesh cache `verts`/`faces`, the three coordinate
grids and per-axis steps copied from the design space, the class name, the
nullable limits, the nullable evaluated grid and distance caches, and the
output filename).  `normals` and `values` are the extra attributes assigned by
`findSurface` on success. -/
structure Geometry where
  x : ℚ
  y : ℚ
  z : ℚ
  verts : Option (List (ℚ × ℚ × ℚ))
  faces : Option (List (ℕ × ℕ × ℕ))
  normals : Option (List (ℚ × ℚ × ℚ))
  values : Option (List ℚ)
  x_grid : List ℚ
  y_grid : List ℚ
  z_grid : List ℚ
  x_step : ℚ
  y_step : ℚ
  z_step : ℚ
  name : String
  x_limits : Option (ℚ × ℚ)
  y_limits : Option (ℚ × ℚ)
  z_limits : Option (ℚ × ℚ)
  evaluated_grid : Option (List ℚ)
  evaluated_distance : Option (List ℚ)
  filename : Option String
  deriving DecidableEq

/-- The polymorphic `evaluate_point` capability a concrete subclass supplies:
given the instance's position offset `(x, y, z)` and a sample point
`(px, py, pz)`, return the scalar value there. -/
abbrev EvalPoint := ℚ → ℚ → ℚ → ℚ → ℚ → ℚ → ℚ

/-- Base-class `Geometry.set_limits`: the body is `pass`, so the state is
returned unchanged. -/
def set_limits (g : Geometry) : Geometry := g

/-- `Geometry.translate(x, y, z)`: adds the delta to the position offset and
then calls `self.set_limits()`.  Nothing else in the state is touched. -/
def Geometry.translate (g : Geometry) (dx dy dz : ℚ) : Geometry :=
  set_limits { g with x := g.x + dx, y := g.y + dy, z := g.z + dz }

/-- The scalar field produced by sampling `evaluate_point` at every point of
the instance's coordinate grids, as in the body of `evaluate_grid`. -/
def evalField (f : EvalPoint) (g : Geometry) : List ℚ :=
  zipWith3 (fun px py pz => f g.x g.y g.z px py pz) g.x_grid g.y_grid g.z_grid

/-- `Geometry.evaluate_grid` (default `gradients=False` path): unconditionally
recomputes the field over the coordinate grids and stores it in
`self.evaluated_grid`.  There is no cache check and no force flag in the
source. -/
def Geometry.evaluate_grid (f : EvalPoint) (g : Geometry) : Geometry :=
  { g with evaluated_grid := some (evalField f g) }

/-- The external isosurface extractor (`skimage.measure.marching_cubes`):
given the scalar field, the level and the per-axis spacing, it either returns
vertices, faces, normals and values, or fails (a ValueError when no surface
crosses the level), modelled as `none`. -/
abbrev MarchingCubes := List ℚ → ℚ → ℚ × ℚ × ℚ →
  Option (List (ℚ × ℚ × ℚ) × List (ℕ × ℕ × ℕ) × List (ℚ × ℚ × ℚ) × List ℚ)

/-- `Geometry.findSurface(level)`: if `self.evaluated_grid is None`, first run
`evaluate_grid`; then call the extractor with the field, the level and the
per-axis steps as spacing.  On success the four outputs are stored; on failure
the exception propagates, and since the Python tuple assignment never executes,
`verts`/`faces` keep their prior values. -/
def Geometry.findSurface (f : EvalPoint) (mc : MarchingCubes) (g : Geometry)
    (level : ℚ) : Geometry × Option PipelineError :=
  let g1 := if g.evaluated_grid.isNone then g.evaluate_grid f else g
  let field := g1.evaluated_grid.getD []
  match mc field level (g1.x_step, g1.y_step, g1.z_step) with
  | none => (g1, some PipelineError.NoIsosurfaceError)
  | some (v, fc, nrm, vals) =>
      ({ g1 with verts := some v, faces := some fc,
                 normals := some nrm, values := some vals }, none)

/-- The external mesh simplifier (`igl.qslim`): vertices, faces and a target
face count in; a success flag and the reduced vertices and faces out. -/
abbrev QSlim := List (ℚ × ℚ × ℚ) → List (ℕ × ℕ × ℕ) → ℤ →
  Bool × List (ℚ × ℚ × ℚ) × List (ℕ × ℕ × ℕ)

/-- The external patch-orientation step (`igl.orientable_patches` followed by
`igl.orient_outward`), collapsed to one oracle from vertices and faces to
re-oriented faces. -/
abbrev OrientOutward := List (ℚ × ℚ × ℚ) → List (ℕ × ℕ × ℕ) → List (ℕ × ℕ × ℕ)

/-- Python's built-in `round` on an exact rational: round half to even. -/
def pyRound (q : ℚ) : ℤ :=
  let f := ⌊q⌋
  let r := q - f
  if r < 1 / 2 then f
  else if 1 / 2 < r then f + 1
  else if 2 ∣ f then f else f + 1

/-- `Geometry.decimate_mesh(factor)`: raises when the mesh cache is absent
(`NoMeshError` in the spec's taxonomy); asserts `0 < factor < 1`
(`InvalidArgumentError`); computes `target = round(len(self.faces)*factor)`;
runs the simplifier, storing its output into `verts`/`faces`; asserts the
resulting face list is non-empty (the assignment has already happened when
this assert fires); then re-orients the faces outward.  The success flag only
affects printing. -/
def Geometry.decimate_mesh (qslim : QSlim) (orient : OrientOutward)
    (g : Geometry) (factor : ℚ) : Geometry × Option PipelineError :=
  match g.verts, g.faces with
  | some v, some fc =>
      if factor < 1 ∧ 0 < factor then
        let target := pyRound ((fc.length : ℚ) * factor)
        let res := qslim v fc target
        let v2 := res.2.1
        let f2 := res.2.2
        if 0 < f2.length then
          ({ g with verts := some v2, faces := some (orient v2 f2) }, none)
        else
          ({ g with verts := some v2, faces := some f2 },
            some PipelineError.QSlimAssertionError)
      else (g, some PipelineError.InvalidArgumentError)
  | _, _ => (g, some PipelineError.NoMeshError)

/-- `Geometry.compare_limits`: per axis, compares the min/max of the recorded
limits against the design-space bounds and prints a non-fatal warning when the
shape is not enclosed.  The comparisons drive printing only, but `min` of a
`None` limits attribute raises TypeError, so the call fails whenever any axis
limits are unset (the state `__init__` leaves them in, since the base
`set_limits` body is `pass`).  The design-space bounds affect only the printed
text, never the state or the raise. -/
def compare_limits (g : Geometry) : Option PipelineError :=
  if g.x_limits.isNone || g.y_limits.isNone || g.z_limits.isNone then
    some PipelineError.TypeError
  else none

/-- Clip-axis selector passed to `previewModel`. -/
inductive ClipAxis where
  | x
  | y
  | z
  deriving DecidableEq

/-- `Geometry.previewModel(clip, clip_value, flip_clip, mode, level)` up to the
hand-off to the renderer (an external collaborator with no state effect).
After the mode assertion comes the unconditional `compare_limits` call, which
raises TypeError when any axis limits are unset; then the grid is evaluated if
absent, and a requested clip overwrites `self.evaluated_grid` with the
pointwise maximum of the field and a clip plane.  As in the source, the branch
for `clip == 'y'` builds its plane from `self.z_grid`, and the branch for
`clip == 'z'` from `self.y_grid`.  In surface mode, an absent mesh cache
triggers `findSurface(level)`. -/
def Geometry.previewModel (f : EvalPoint) (mc : MarchingCubes) (g : Geometry)
    (clip : Option ClipAxis) (clip_value : ℚ) (flip_clip : Bool)
    (mode : String) (level : ℚ) : Geometry × Option PipelineError :=
  if !(mode == "volume") && !(mode == "surface") then
    (g, some PipelineError.InvalidArgumentError)
  else if (compare_limits g).isSome then
    (g, compare_limits g)
  else
    let g1 := if g.evaluated_grid.isNone then g.evaluate_grid f else g
    let field := g1.evaluated_grid.getD []
    let g2 :=
      match clip with
      | none => g1
      | some a =>
          let coords :=
            match a with
            | ClipAxis.x => g1.x_grid
            | ClipAxis.y => g1.z_grid
            | ClipAxis.z => g1.y_grid
          let plane :=
            if flip_clip then coords.map (fun t => clip_value - t)
            else coords.map (fun t => t - clip_value)
          { g1 with evaluated_grid := some (List.zipWith max field plane) }
    if mode == "surface" && (g2.verts.isNone || g2.faces.isNone) then
      g2.findSurface f mc level
    else (g2, none)

/-- The extension table of `Geometry.save_mesh`. -/
def formats : String → Option String
  | "obj" => some ".obj"
  | "stl" => some ".stl"
  | ".stl" => some ".stl"
  | ".obj" => some ".obj"
  | _ => none

/-- `Geometry.save_mesh(filename, file_format)` up to the hand-off to the
external mesh writer: an unsupported format raises ValueError; with no
filename, `self.filename` becomes the class name plus the extension; with a
caller-supplied filename, the extension is concatenated unconditionally.  An
absent mesh cache then triggers `findSurface()` before writing. -/
def Geometry.save_mesh (f : EvalPoint) (mc : MarchingCubes) (g : Geometry)
    (filename : Option String) (file_format : String) :
    Geometry × Option PipelineError :=
  match formats file_format with
  | none => (g, some PipelineError.ValueError)
  | some ext =>
      let g1 :=
        match filename with
        | none => { g with filename := some (g.name ++ ext) }
        | some fn => { g with filename := some (fn ++ ext) }
      if g1.faces.isNone ∨ g1.verts.isNone then g1.findSurface f mc 0
      else (g1, none)

/-- `Geometry.save_tet_mesh(filename, ...)` up to the hand-off to the external
tetrahedralizer: with no filename, `self.filename` becomes the class name plus
a msh extension; with a caller-supplied filename, the source tests
`filename[:-4] != '.msh'` — the string with its LAST four characters dropped,
not its last four characters — and appends the msh extension when that test
holds, leaving `self.filename` at its prior value otherwise.  An absent mesh
cache then triggers `findSurface()`. -/
def Geometry.save_tet_mesh (f : EvalPoint) (mc : MarchingCubes) (g : Geometry)
    (filename : Option String) : Geometry × Option PipelineError :=
  let g1 :=
    match filename with
    | none => { g with filename := some (g.name ++ ".msh") }
    | some fn =>
        if fn.dropRight 4 ≠ ".msh" then { g with filename := some (fn ++ ".msh") }
        else g
  if g1.verts.isNone then g1.findSurface f mc 0
  else (g1, none)

/-- The caller-frame variable scope a numexpr evaluation resolves names in:
the local array bindings of the calling method. -/
abbrev ArrayScope := List (String × List ℚ)

/-- Name lookup in the caller's scope. -/
def lookupVar : ArrayScope → String → Option (List ℚ)
  | [], _ => none
  | (n, v) :: rest, s => if n = s then some v else lookupVar rest s

/-- Model of `numexpr.evaluate`: every variable name appearing in the
expression string is resolved in the caller's scope; an unresolvable name is
an error before any arithmetic happens.  The arithmetic itself is the opaque
`comp`, applied to the resolved arrays. -/
def neEvaluate (scope : ArrayScope) (vars : List String)
    (comp : List (List ℚ) → List ℚ) : Except String (List ℚ) :=
  match vars.mapM (lookupVar scope) with
  | none => Except.error "unknown variable name"
  | some vals => Except.ok (comp vals)

/-- `Geometry.convertToSpherical`: binds the coordinate arrays to the LOCAL
names `XX`, `YY`, `ZZ`, then evaluates numexpr strings whose variables are
`x_grid`, `y_grid`, `z_grid` — names bound neither in the method's local scope
nor at module level.  The three arithmetic kernels (sqrt and the two arctan2
forms) are opaque parameters; on success the converted grids would replace the
instance's and the grid would be re-evaluated. -/
def Geometry.convertToSpherical (sqrtExpr atExprA atExprB : List (List ℚ) → List ℚ)
    (f : EvalPoint) (g : Geometry) : Except String Geometry := do
  let XX := g.x_grid
  let YY := g.y_grid
  let ZZ := g.z_grid
  let localScope : ArrayScope := [("XX", XX), ("YY", YY), ("ZZ", ZZ)]
  let r ← neEvaluate localScope ["x_grid", "y_grid", "z_grid"] sqrtExpr
  let th ← neEvaluate localScope ["x_grid", "y_grid", "z_grid"] atExprA
  let ph ← neEvaluate localScope ["y_grid", "x_grid"] atExprB
  let g1 := { g with x_grid := r, y_grid := th, z_grid := ph }
  return g1.evaluate_grid f

/-- Modelled from the spec: the pointwise subtraction composite of two
evaluables, with `(A - B)(p) = A(p) - B(p)`.  The shape classes implementing
the minus operator on lattices (`Lattice`, `GyroidSurface` and their common
base) are not among the reviewed files. -/
def latticeSub (A B : ℚ → ℚ → ℚ → ℚ) (x y z : ℚ) : ℚ := A x y z - B x y z

/-- The high volume-fraction parameter of `DoubleGyroidNetwork.evaluatePoint`:
the source first takes `vf = 1 - self.vf` and then `vfHigh = 0.5 + vf/2`. -/
def DoubleGyroidNetwork.vfHigh (selfVf : ℚ) : ℚ :=
  let vf := 1 - selfVf
  1 / 2 + vf / 2

/-- The low volume-fraction parameter of `DoubleGyroidNetwork.evaluatePoint`:
the source first takes `vf = 1 - self.vf` and then `vfLow = 0.5 - vf/2`. -/
def DoubleGyroidNetwork.vfLow (selfVf : ℚ) : ℚ :=
  let vf := 1 - selfVf
  1 / 2 - vf / 2

/-- `DoubleGyroidNetwork.evaluatePoint(x, y, z)` on the Cartesian path the
constructor sets up (`coordSys = 'car'`, no transform): builds the subtraction
composite of the same `GyroidSurface` family at the two derived
volume-fraction parameters and returns the negation of its value at the point.
The `GyroidSurface` closed form is a leaf outside the reviewed files, so the
family is an opaque parameter from a volume fraction and a point to a value. -/
def DoubleGyroidNetwork.evaluatePoint (A : ℚ → ℚ → ℚ → ℚ → ℚ) (selfVf : ℚ)
    (x y z : ℚ) : ℚ :=
  -(latticeSub (A (DoubleGyroidNetwork.vfHigh selfVf))
      (A (DoubleGyroidNetwork.vfLow selfVf)) x y z)

/-- The polar angle of the cylindrical branch of
`DoubleGyroidNetwork.evaluatePoint`: the source computes
`theta = np.arctan(y/z)`, the single-argument arctangent of the quotient,
under numpy array semantics.  For z ≠ 0 this is the arctangent of the real
quotient; at z = 0 the quotient y/0 is signed infinity (numpy emits a divide
RuntimeWarning, not an exception) and np.arctan of ±inf is ±pi/2.  At the
origin the quotient is nan; it is conventionally mapped to 0 here, and no
claim evaluates there. -/
noncomputable def cylTheta (y z : ℝ) : ℝ :=
  if z = 0 then
    (if 0 < y then Real.pi / 2 else if y < 0 then -(Real.pi / 2) else 0)
  else Real.arctan (y / z)

/-- Modelled from the spec: standard `atan2(y, z)` semantics, defined for all
inputs except the origin (where it is conventionally 0 here). -/
noncomputable def atan2spec (y z : ℝ) : ℝ :=
  if 0 < z then Real.arctan (y / z)
  else if z < 0 then
    (if 0 ≤ y then Real.arctan (y / z) + Real.pi else Real.arctan (y / z) - Real.pi)
  else
    (if 0 < y then Real.pi / 2 else if y < 0 then -(Real.pi / 2) else 0)

/-- A concrete fully populated geometry state used by concrete instantiations:
both caches set, a mesh present, a stored filename. -/
def gEx : Geometry where
  x := 1
  y := 2
  z := 3
  verts := some [(0, 0, 0), (1, 0, 0), (0, 1, 0)]
  faces := some [(0, 1, 2)]
  normals := none
  values := none
  x_grid := [0, 1]
  y_grid := [0, 2]
  z_grid := [0, 3]
  x_step := 1
  y_step := 1
  z_step := 1
  name := "Geometry"
  x_limits := some (0, 1)
  y_limits := some (0, 2)
  z_limits := some (0, 3)
  evaluated_grid := some [5, 7]
  evaluated_distance := some [1, 1]
  filename := some "old"

/-- A concrete empty geometry state: no caches, no mesh, nothing stored. -/
def gEmpty : Geometry where
  x := 0
  y := 0
  z := 0
  verts := none
  faces := none
  normals := none
  values := none
  x_grid := [0, 1]
  y_grid := [0, 2]
  z_grid := [0, 3]
  x_step := 1
  y_step := 1
  z_step := 1
  name := "Geometry"
  x_limits := none
  y_limits := none
  z_limits := none
  evaluated_grid := none
  evaluated_distance := none
  filename := none

/-- A concrete evaluate-point function: the field value at a sample point is
the sample's x coordinate plus the instance's x offset. -/
def fEx : EvalPoint := fun sx _ _ px _ _ => sx + px

/-- A concrete extractor that always fails to find an isosurface. -/
def mcFail : MarchingCubes := fun _ _ _ => none

/-- A concrete simplifier oracle recording its target in the output length. -/
def qslimEx : QSlim := fun v _ t => (true, v, List.replicate t.toNat (0, 1, 2))

/-- A concrete orientation oracle: leaves the faces as they are. -/
def orientEx : OrientOutward := fun _ fc => fc

/-- Helper: `findSurface` never touches the stored filename. -/
theorem findSurface_filename (f : EvalPoint) (mc : MarchingCubes) (g : Geometry)
    (level : ℚ) : (g.findSurface f mc level).1.filename = g.filename := by
  unfold Geometry.findSurface
  split <;> (dsimp only; split <;> rfl)

/-- C1 counterexample: at vf = 1/5 the source parameters are 9/10 and 1/10,
not the 6/10 and 4/10 the claim derives, and the composite value at the
origin under the family A(vf)(p) = vf is -(9/10 - 1/10), not -(6/10 - 4/10). -/
theorem c1_double_network_counterexample :
    DoubleGyroidNetwork.vfHigh (1 / 5) ≠ 6 / 10 ∧
    DoubleGyroidNetwork.vfLow (1 / 5) ≠ 4 / 10 ∧
    DoubleGyroidNetwork.evaluatePoint (fun vf _ _ _ => vf) (1 / 5) 0 0 0 ≠
      -((6 : ℚ) / 10 - 4 / 10) := by
  refine ⟨?_, ?_, ?_⟩ <;>
    norm_num [DoubleGyroidNetwork.vfHigh, DoubleGyroidNetwork.vfLow,
      DoubleGyroidNetwork.evaluatePoint, latticeSub]

/-- C1 (amended): the double-network evaluation first complements the stored
volume fraction, so it uses vfHigh = 0.5 + (1 - vf)/2 and
vfLow = 0.5 - (1 - vf)/2, whose difference is 1 - vf (vf = 0.2 gives 0.9 and
0.1); the composite value at every point is the negated pointwise subtraction
of the same primitive family at those two parameters. -/
theorem c1_double_network_eval (A : ℚ → ℚ → ℚ → ℚ → ℚ) (selfVf x y z : ℚ) :
    DoubleGyroidNetwork.vfHigh selfVf = 1 / 2 + (1 - selfVf) / 2 ∧
    DoubleGyroidNetwork.vfLow selfVf = 1 / 2 - (1 - selfVf) / 2 ∧
    DoubleGyroidNetwork.vfHigh selfVf - DoubleGyroidNetwork.vfLow selfVf
      = 1 - selfVf ∧
    DoubleGyroidNetwork.evaluatePoint A selfVf x y z =
      -(A (DoubleGyroidNetwork.vfHigh selfVf) x y z -
        A (DoubleGyroidNetwork.vfLow selfVf) x y z) := by
  refine ⟨rfl, rfl, ?_, rfl⟩
  unfold DoubleGyroidNetwork.vfHigh DoubleGyroidNetwork.vfLow
  ring

/-- C2 counterexample: on a state with all three caches populated, translate
leaves every one of them populated. -/
theorem c2_translate_counterexample :
    (gEx.translate 1 0 0).evaluated_grid ≠ none ∧
    (gEx.translate 1 0 0).verts ≠ none ∧
    (gEx.translate 1 0 0).faces ≠ none ∧
    (gEx.translate 1 0 0).evaluated_distance ≠ none := by
  refine ⟨by decide, by decide, by decide, by decide⟩

/-- C2 (amended): translate adds the delta to the position offset and calls
set_limits, but invalidates nothing: the evaluated grid, the mesh cache and
the distance cache are exactly what they were before the call. -/
theorem c2_translate_state (g : Geometry) (dx dy dz : ℚ) :
    (g.translate dx dy dz).x = g.x + dx ∧
    (g.translate dx dy dz).y = g.y + dy ∧
    (g.translate dx dy dz).z = g.z + dz ∧
    (g.translate dx dy dz).evaluated_grid = g.evaluated_grid ∧
    (g.translate dx dy dz).verts = g.verts ∧
    (g.translate dx dy dz).faces = g.faces ∧
    (g.translate dx dy dz).evaluated_distance = g.evaluated_distance :=
  ⟨rfl, rfl, rfl, rfl, rfl, rfl, rfl⟩

/-- C3: at a zero divisor, for every point off the origin, the cylindrical
polar-angle computation follows standard atan2 semantics and returns a
defined angle (one of the two atan2 boundary values ±pi/2); under numpy
array evaluation the zero divisor produces an infinity with a warning, never
a division error. -/
theorem c3_cyl_theta_zero_divisor (y : ℝ) (h : y ≠ 0) :
    cylTheta y 0 = atan2spec y 0 ∧
    (cylTheta y 0 = Real.pi / 2 ∨ cylTheta y 0 = -(Real.pi / 2)) := by
  constructor
  · unfold cylTheta atan2spec
    norm_num
  · unfold cylTheta
    rcases h.lt_or_lt with hy | hy
    · right
      rw [if_pos rfl, if_neg (not_lt.mpr hy.le), if_pos hy]
    · left
      rw [if_pos rfl, if_pos hy]

/-- C3 witness: the zero-divisor agreement instantiated at y = 1, z = 0. -/
theorem c3_cyl_theta_zero_divisor_witness :
    (1 : ℝ) ≠ 0 ∧
    (cylTheta 1 0 = atan2spec 1 0 ∧
      (cylTheta 1 0 = Real.pi / 2 ∨ cylTheta 1 0 = -(Real.pi / 2))) :=
  ⟨one_ne_zero, c3_cyl_theta_zero_divisor 1 one_ne_zero⟩

/-- C4: evaluate_grid is idempotent as a state transformer: a second call on
the already evaluated state reproduces the same state, and in particular the
cached field of two consecutive calls is identical both times. -/
theorem c4_evaluate_grid_idempotent (f : EvalPoint) (g : Geometry) :
    (g.evaluate_grid f).evaluate_grid f = g.evaluate_grid f ∧
    ((g.evaluate_grid f).evaluate_grid f).evaluated_grid
      = (g.evaluate_grid f).evaluated_grid :=
  ⟨rfl, rfl⟩

/-- C5: with the grid cache unset, findSurface first performs evaluate_grid;
when the extractor finds no isosurface at the level, the call reports
NoIsosurfaceError and the mesh cache is exactly what it was before the call
(unset stays unset). -/
theorem c5_findSurface_error (f : EvalPoint) (mc : MarchingCubes) (g : Geometry)
    (level : ℚ) (h1 : g.evaluated_grid = none)
    (h2 : mc (evalField f g) level (g.x_step, g.y_step, g.z_step) = none) :
    g.findSurface f mc level
      = (g.evaluate_grid f, some PipelineError.NoIsosurfaceError) ∧
    (g.findSurface f mc level).1.verts = g.verts ∧
    (g.findSurface f mc level).1.faces = g.faces := by
  have hmain : g.findSurface f mc level
      = (g.evaluate_grid f, some PipelineError.NoIsosurfaceError) := by
    unfold Geometry.findSurface
    simp only [h1, Option.isNone_none, if_true]
    have hfield : (g.evaluate_grid f).evaluated_grid.getD [] = evalField f g := rfl
    rw [hfield]
    have hsteps : (g.evaluate_grid f).x_step = g.x_step ∧
        (g.evaluate_grid f).y_step = g.y_step ∧
        (g.evaluate_grid f).z_step = g.z_step := ⟨rfl, rfl, rfl⟩
    rw [hsteps.1, hsteps.2.1, hsteps.2.2, h2]
  exact ⟨hmain, by rw [hmain]; rfl, by rw [hmain]; rfl⟩

/-- C5 witness: the error path instantiated on a concrete empty state and an
extractor that always fails. -/
theorem c5_findSurface_error_witness :
    gEmpty.evaluated_grid = none ∧
    mcFail (evalField fEx gEmpty) 0 (gEmpty.x_step, gEmpty.y_step, gEmpty.z_step)
      = none ∧
    (gEmpty.findSurface fEx mcFail 0
        = (gEmpty.evaluate_grid fEx, some PipelineError.NoIsosurfaceError) ∧
      (gEmpty.findSurface fEx mcFail 0).1.verts = gEmpty.verts ∧
      (gEmpty.findSurface fEx mcFail 0).1.faces = gEmpty.faces) :=
  ⟨rfl, rfl, c5_findSurface_error fEx mcFail gEmpty 0 rfl rfl⟩

/-- C6: convertToSpherical fails on every call, whatever the state and the
arithmetic kernels: the expression variables x_grid, y_grid, z_grid are not
bound in the method's local scope (which binds XX, YY, ZZ), so the first
numexpr evaluation reports an unknown variable name before any coordinate
array is produced. -/
theorem c6_convertToSpherical_raises (s a b : List (List ℚ) → List ℚ)
    (f : EvalPoint) (g : Geometry) :
    g.convertToSpherical s a b f = Except.error "unknown variable name" := rfl

/-- C7 counterexample: a filename already carrying the correct extension is
not used unchanged: save_mesh turns part.stl into part.stl.stl, and
save_tet_mesh turns part.msh into part.msh.msh. -/
theorem c7_filename_counterexample :
    (gEx.save_mesh fEx mcFail (some "part.stl") "stl").1.filename
      ≠ some "part.stl" ∧
    (gEx.save_tet_mesh fEx mcFail (some "part.msh")).1.filename
      ≠ some "part.msh" := by
  refine ⟨by decide, by decide⟩

/-- C7 (amended): save_mesh concatenates the format's extension to a
caller-supplied name unconditionally, even when the name already ends with
it; save_tet_mesh appends the msh extension whenever the name with its last
four characters dropped differs from the msh extension string (a slipped
prefix test rather than a suffix test), and otherwise leaves the stored
filename at its prior value, so a name already ending in the msh extension
still receives a second copy of it. -/
theorem c7_filename_extension (g : Geometry) (f : EvalPoint) (mc : MarchingCubes)
    (fn fn2 fn3 ff ext : String) (h : formats ff = some ext)
    (h2 : fn2.dropRight 4 ≠ ".msh") (h3 : fn3.dropRight 4 = ".msh") :
    (g.save_mesh f mc (some fn) ff).1.filename = some (fn ++ ext) ∧
    (g.save_tet_mesh f mc (some fn2)).1.filename = some (fn2 ++ ".msh") ∧
    (g.save_tet_mesh f mc (some fn3)).1.filename = g.filename := by
  refine ⟨?_, ?_, ?_⟩
  · unfold Geometry.save_mesh
    rw [h]
    dsimp only
    split
    · exact (findSurface_filename f mc _ 0).trans rfl
    · rfl
  · unfold Geometry.save_tet_mesh
    dsimp only
    rw [if_pos h2]
    split
    · exact (findSurface_filename f mc _ 0).trans rfl
    · rfl
  · unfold Geometry.save_tet_mesh
    dsimp only
    have hg1 : (if fn3.dropRight 4 ≠ ".msh"
          then { g with filename := some (fn3 ++ ".msh") } else g) = g :=
      if_neg fun hcon => hcon h3
    rw [hg1]
    split
    · exact findSurface_filename f mc g 0
    · rfl

/-- C7 witness: the amended extension behaviour instantiated on a concrete
state with concrete filenames. -/
theorem c7_filename_extension_witness :
    formats "stl" = some ".stl" ∧
    ("part.stl").dropRight 4 ≠ ".msh" ∧
    (".msh.msh").dropRight 4 = ".msh" ∧
    ((gEx.save_mesh fEx mcFail (some "part.stl") "stl").1.filename
        = some ("part.stl" ++ ".stl") ∧
      (gEx.save_tet_mesh fEx mcFail (some "part.stl")).1.filename
        = some ("part.stl" ++ ".msh") ∧
      (gEx.save_tet_mesh fEx mcFail (some ".msh.msh")).1.filename
        = gEx.filename) :=
  ⟨rfl, by decide, by decide,
    c7_filename_extension gEx fEx mcFail "part.stl" "part.stl" ".msh.msh" "stl"
      ".stl" rfl (by decide) (by decide)⟩

/-- C8: with a populated mesh cache, a factor outside the open unit interval
always yields InvalidArgumentError and leaves the state untouched; a valid
factor hands the simplifier the target round(face_count * factor), Python
round being half-to-even. -/
theorem c8_decimate (qslim : QSlim) (orient : OrientOutward) (g : Geometry)
    (factor : ℚ) (v : List (ℚ × ℚ × ℚ)) (fc : List (ℕ × ℕ × ℕ))
    (hv : g.verts = some v) (hf : g.faces = some fc) :
    (¬ (0 < factor ∧ factor < 1) →
      g.decimate_mesh qslim orient factor
        = (g, some PipelineError.InvalidArgumentError)) ∧
    (0 < factor → factor < 1 →
      g.decimate_mesh qslim orient factor
        = (let res := qslim v fc (pyRound ((fc.length : ℚ) * factor))
           if 0 < res.2.2.length then
             ({ g with verts := some res.2.1,
                       faces := some (orient res.2.1 res.2.2) }, none)
           else
             ({ g with verts := some res.2.1, faces := some res.2.2 },
               some PipelineError.QSlimAssertionError))) := by
  constructor
  · intro hbad
    unfold Geometry.decimate_mesh
    simp only [hv, hf]
    rw [if_neg fun hcon => hbad ⟨hcon.2, hcon.1⟩]
  · intro hlo hhi
    unfold Geometry.decimate_mesh
    simp only [hv, hf]
    rw [if_pos ⟨hhi, hlo⟩]

/-- C8 witness: the invalid-factor branch instantiated at factor 2 on a
concrete state carrying a mesh. -/
theorem c8_decimate_witness :
    gEx.verts = some [(0, 0, 0), (1, 0, 0), (0, 1, 0)] ∧
    gEx.faces = some [(0, 1, 2)] ∧
    gEx.decimate_mesh qslimEx orientEx 2
      = (gEx, some PipelineError.InvalidArgumentError) :=
  ⟨rfl, rfl,
    (c8_decimate qslimEx orientEx gEx 2 _ _ rfl rfl).1 (by norm_num)⟩

/-- C9: translating by a delta and back restores the position offset exactly,
and a grid evaluated after the round trip is identical to the grid evaluated
on the original state. -/
theorem c9_translate_roundtrip (g : Geometry) (dx dy dz : ℚ) (f : EvalPoint) :
    ((g.translate dx dy dz).translate (-dx) (-dy) (-dz)).x = g.x ∧
    ((g.translate dx dy dz).translate (-dx) (-dy) (-dz)).y = g.y ∧
    ((g.translate dx dy dz).translate (-dx) (-dy) (-dz)).z = g.z ∧
    (((g.translate dx dy dz).translate (-dx) (-dy) (-dz)).evaluate_grid f).evaluated_grid
      = (g.evaluate_grid f).evaluated_grid := by
  refine ⟨?_, ?_, ?_, ?_⟩ <;>
    simp [Geometry.translate, set_limits, Geometry.evaluate_grid, evalField]

/-- C10: previewModel with a clip axis overwrites the cached evaluated grid
in the returned state with the pointwise maximum of the field and the clip
plane, and the planes for the y and z axes are built from the swapped
coordinate grids: clipping on y uses the z coordinate grid and clipping on z
uses the y coordinate grid. -/
theorem c10_preview_clip (f : EvalPoint) (mc : MarchingCubes) (g : Geometry)
    (v level : ℚ) (field : List ℚ) (hL : compare_limits g = none)
    (h : g.evaluated_grid = some field) :
    (g.previewModel f mc (some ClipAxis.x) v false "volume" level).1.evaluated_grid
      = some (List.zipWith max field (g.x_grid.map (fun t => t - v))) ∧
    (g.previewModel f mc (some ClipAxis.y) v false "volume" level).1.evaluated_grid
      = some (List.zipWith max field (g.z_grid.map (fun t => t - v))) ∧
    (g.previewModel f mc (some ClipAxis.z) v false "volume" level).1.evaluated_grid
      = some (List.zipWith max field (g.y_grid.map (fun t => t - v))) := by
  unfold Geometry.previewModel
  refine ⟨?_, ?_, ?_⟩ <;> simp [hL, h]

/-- C10 witness: the clip overwrite instantiated on a concrete state with set
limits, showing the clip on the y axis applied against the z coordinate
grid. -/
theorem c10_preview_clip_witness :
    compare_limits gEx = none ∧
    gEx.evaluated_grid = some [5, 7] ∧
    (gEx.previewModel fEx mcFail (some ClipAxis.y) 1 false "volume" 0).1.evaluated_grid
      = some (List.zipWith max [5, 7] (gEx.z_grid.map (fun t => t - 1))) :=
  ⟨rfl, rfl, (c10_preview_clip fEx mcFail gEx 1 0 [5, 7] rfl rfl).2.1⟩

end MetaStruct
